import Mathlib

/-!
# Verification of the ROS route-optimization engine

A shallow embedding of the core of the SwiftLogistics ROS repository
(`src/app/services/optimization.py` and `src/app/services/ros_pipeline.py`)
and proofs of the specification's claims about it.

Modelling conventions:
* Python floats are embedded as exact rationals (`ℚ`); `round(x, 2)` is
  embedded as round-half-to-even at two decimals, `int(x)` as truncation
  toward zero.
* External capabilities (the Nominatim geocoder, the geodesic distance
  function of `geopy`, and the VROOM solver HTTP endpoint) are parameters
  of the embedded functions: the code only observes their input/output
  behaviour.
* Python exceptions are embedded as `Except String` / `Option` results;
  a `raise` or uncaught `KeyError` is an `error` / `none` value.
* Python dicts keyed by ids/strings are embedded as association lists with
  the insertion discipline the code actually uses.
-/

namespace ROS

/-- A latitude/longitude pair, as the Python `(lat, lon)` tuple. -/
abbrev Coord := ℚ × ℚ

/-- Python `int(x)` applied to a float: truncation toward zero. -/
def pyInt (q : ℚ) : ℤ :=
  if q < 0 then -⌊-q⌋ else ⌊q⌋

/-- Round to the nearest integer, ties to even: the rounding of Python's
built-in `round` (here applied to exact rationals). -/
def roundHalfEven (q : ℚ) : ℤ :=
  let f := ⌊q⌋
  let r := q - (f : ℚ)
  if r < 1/2 then f
  else if 1/2 < r then f + 1
  else if f % 2 = 0 then f else f + 1

/-- Python `round(x, 2)`: round half to even at two decimal places. -/
def round2 (q : ℚ) : ℚ :=
  (roundHalfEven (q * 100) : ℚ) / 100

/-- Python `f"{n:02d}"`: decimal rendering left-padded with `0` to width 2. -/
def pad2 (n : ℤ) : String :=
  let s := toString n
  if s.length < 2 then "0" ++ s else s

/-- Embeds `app/db/models.py` `Address` rows, restricted to the columns the embedded
services read.  Nullable columns are `Option`; Python truthiness on them is
`truthyQ` below. -/
structure Address where
  id : ℕ
  street_address : String
  city : String
  state : String
  postal_code : String
  country : String
  latitude : Option ℚ
  longitude : Option ℚ
  delivery_weight : ℚ
  delivery_volume : ℚ
  time_window_start : Option String
  time_window_end : Option String
  service_time : ℤ
  priority : ℤ
  deriving Repr, DecidableEq

/-- Embeds `app/db/models.py` `Vehicle` rows, restricted to the columns the embedded
services read (`id`, `capacity`, `cost_per_km`). -/
structure Vehicle where
  id : ℕ
  capacity : ℚ
  cost_per_km : ℚ
  deriving Repr, DecidableEq

/-- Python truthiness of a nullable float column: `None` and `0.0` are falsy. -/
def truthyQ : Option ℚ → Bool
  | none => false
  | some q => decide (q ≠ 0)

/-- Python truthiness of a nullable string column: `None` and `""` are falsy. -/
def truthyS : Option String → Bool
  | none => false
  | some s => !s.isEmpty

/-! ## `app/services/optimization.py`: `RouteOptimizationService`

The service's geocoder (`Nominatim.geocode`) is the parameter
`lookup : String → Option Coord` (`none` covers both a no-result reply and a
raised geocoder exception, which the method treats identically), and
`geopy.distance.geodesic(...).kilometers` is the parameter
`dist : Coord → Coord → ℚ`. -/

/-- The f-string
`f"{street_address}, {city}, {state}, {postal_code}, {country}"` of
`RouteOptimizationService.geocode_address`. -/
def full_address (a : Address) : String :=
  a.street_address ++ ", " ++ a.city ++ ", " ++ a.state ++ ", " ++
    a.postal_code ++ ", " ++ a.country

/-- Embeds `RouteOptimizationService.geocode_address`: stored coordinates (when both
are truthy) bypass the lookup; a lookup miss or error yields the `(0.0, 0.0)`
sentinel. -/
def opt_geocode_address (lookup : String → Option Coord) (a : Address) : Coord :=
  if truthyQ a.latitude && truthyQ a.longitude then
    (a.latitude.getD 0, a.longitude.getD 0)
  else
    match lookup (full_address a) with
    | some c => c
    | none => (0, 0)

/-- Embeds `RouteOptimizationService.calculate_travel_time`:
`int((distance_km / avg_speed_kmh) * 60)` (minutes). -/
def calculate_travel_time (distance_km : ℚ) (avg_speed_kmh : ℚ) : ℤ :=
  pyInt (distance_km / avg_speed_kmh * 60)

/-- The ordered coordinate list built by
`RouteOptimizationService.create_distance_matrix`: the depot first, then each
address geocoded in input order. -/
def matrixCoords (lookup : String → Option Coord) (addresses : List Address)
    (depot_location : Coord) : List Coord :=
  depot_location :: addresses.map (opt_geocode_address lookup)

/-- The distance matrix of `create_distance_matrix` as a function of a node
pair: `0` on the diagonal, `dist` between the listed coordinates elsewhere.
Only indices below the coordinate count are ever used by the service. -/
def matrixOf (dist : Coord → Coord → ℚ) (coords : List Coord) : ℕ → ℕ → ℚ :=
  fun i j => if i = j then 0 else dist (coords.getD i (0, 0)) (coords.getD j (0, 0))

/-- Python `min(unvisited, key=key)` over a set of node indices held in
ascending order: the lowest-index minimiser of `key`. -/
def argminKey (key : ℕ → ℚ) : List ℕ → Option ℕ
  | [] => none
  | x :: xs => some (xs.foldl (fun b y => if key y < key b then y else b) x)

/-- The `while unvisited:` loop of `nearest_neighbor_tsp`, with the number of
unvisited nodes as the structural measure (each turn removes exactly one). -/
def nnLoop (d : ℕ → ℕ → ℚ) : ℕ → ℕ → List ℕ → List ℕ
  | 0, _, _ => []
  | fuel + 1, current, unvisited =>
    match argminKey (fun x => d current x) unvisited with
    | none => []
    | some nearest => nearest :: nnLoop d fuel nearest (unvisited.erase nearest)

/-- Embeds `RouteOptimizationService.nearest_neighbor_tsp` on an `n`-node matrix.
`unvisited.remove(start_node)` raises `KeyError` when `start_node` is not a
node (in particular on a zero-node matrix), embedded as `none`. -/
def nearest_neighbor_tsp (d : ℕ → ℕ → ℚ) (n : ℕ) (start_node : ℕ) :
    Option (List ℕ) :=
  if start_node < n then
    let unvisited := (List.range n).erase start_node
    some (start_node :: nnLoop d unvisited.length start_node unvisited)
  else none

/-- Sum of the distances along consecutive tour edges
(`for i in range(len(tour) - 1)` of `calculate_tour_distance`). -/
def pathDist (d : ℕ → ℕ → ℚ) : List ℕ → ℚ
  | a :: b :: rest => d a b + pathDist d (b :: rest)
  | _ => 0

/-- Embeds `RouteOptimizationService.calculate_tour_distance`: consecutive edges plus
the closing edge from the last node back to the first.  (The service never
calls it on an empty tour, where Python's `tour[-1]` would raise.) -/
def calculate_tour_distance (d : ℕ → ℕ → ℚ) (tour : List ℕ) : ℚ :=
  pathDist d tour +
    match tour with
    | [] => 0
    | x :: _ => d (tour.getLastD 0) x

/-- Python `range(a, b)` as an ascending list. -/
def pyRange (a b : ℕ) : List ℕ :=
  (List.range b).filter (fun x => a ≤ x)

/-- The index pairs scanned by one 2-opt pass:
`for i in range(1, len(tour) - 2): for j in range(i + 1, len(tour))`. -/
def twoOptPairs (n : ℕ) : List (ℕ × ℕ) :=
  (pyRange 1 (n - 2)).flatMap (fun i => (pyRange (i + 1) n).map (fun j => (i, j)))

/-- Python `new_tour = tour[:]; new_tour[i:j] = tour[i:j][::-1]`: the tour with the
segment at positions `[i, j)` reversed. -/
def reverseSegment (l : List ℕ) (i j : ℕ) : List ℕ :=
  l.take i ++ ((l.drop i).take (j - i)).reverse ++ l.drop j

/-- The body of the double `for` loop of `two_opt_improvement`: one candidate
pair applied to the running `(best_tour, improved)` state (the `j - i == 1`
pairs are skipped). -/
def twoOptStep (d : ℕ → ℕ → ℚ) (tour : List ℕ) :
    List ℕ × Bool → ℕ × ℕ → List ℕ × Bool
  | (best, improved), (i, j) =>
    if j - i = 1 then (best, improved)
    else
      let new_tour := reverseSegment tour i j
      if calculate_tour_distance d new_tour < calculate_tour_distance d best then
        (new_tour, true)
      else (best, improved)

/-- One full pass of `two_opt_improvement` over all index pairs, starting from
`improved = False`.  `tour` (the pass-start tour, used to build candidates and
as initial best) equals the running best at every pass boundary. -/
def twoOptPass (d : ℕ → ℕ → ℚ) (tour : List ℕ) : List ℕ × Bool :=
  (twoOptPairs tour.length).foldl (twoOptStep d tour) (tour, false)

/-- The `while improved:` loop of `two_opt_improvement`.  In the source the
loop runs until a pass makes no strict improvement; every improving pass
strictly decreases the best tour's distance, and the best tour always stays a
permutation of the input, so at most `(length)! ` passes can improve and the
fuel `(length)! + 1` used below never runs out before the natural exit. -/
def twoOptLoop (d : ℕ → ℕ → ℚ) : ℕ → List ℕ → List ℕ
  | 0, tour => tour
  | fuel + 1, tour =>
    let (best, improved) := twoOptPass d tour
    if improved then twoOptLoop d fuel best else best

/-- Embeds `RouteOptimizationService.two_opt_improvement`. -/
def two_opt_improvement (d : ℕ → ℕ → ℚ) (tour : List ℕ) : List ℕ :=
  twoOptLoop d (Nat.factorial tour.length + 1) tour

/-- One entry of the `stops` list a route dict carries.  `time_from_previous`
is an integer minute count on the heuristic path but a float on the VROOM
decode path, so the field is `ℚ` here. -/
structure StopDict where
  address_id : ℕ
  sequence : ℕ
  estimated_arrival : String
  distance_from_previous : ℚ
  time_from_previous : ℚ
  deriving Repr, DecidableEq

/-- The route dict `optimize_single_vehicle_route` (and the VROOM decoder)
returns. -/
structure RouteDict where
  vehicle_id : ℕ
  stops : List StopDict
  total_distance : ℚ
  total_time : ℤ
  total_cost : ℚ
  deriving Repr, DecidableEq

/-- The placeholder an out-of-range Python list index would return; the
embedded loops only index `addresses[stop_idx - 1]` with `stop_idx` a
non-depot node of the tour, which is always in range. -/
def dummyAddress : Address :=
  { id := 0, street_address := "", city := "", state := "", postal_code := "",
    country := "", latitude := none, longitude := none, delivery_weight := 0,
    delivery_volume := 0, time_window_start := none, time_window_end := none,
    service_time := 0, priority := 0 }

/-- The `for i, stop_idx in enumerate(tour[1:], 1)` loop of
`optimize_single_vehicle_route`: walks the tour's tail carrying the sequence
index `i`, the running clock `current_time` and the previous node, and
returns the stop dicts together with the accumulated
`total_distance` (`ℚ`) and `total_time` (`ℤ`) contributions. -/
def buildStops (d : ℕ → ℕ → ℚ) (addresses : List Address) :
    ℕ → ℤ → ℕ → List ℕ → List StopDict × ℚ × ℤ
  | _, _, _, [] => ([], 0, 0)
  | i, current_time, prev, stop_idx :: rest =>
    let address := addresses.getD (stop_idx - 1) dummyAddress
    let distance_from_previous := d prev stop_idx
    let time_from_previous := calculate_travel_time distance_from_previous 50
    let ct := current_time + time_from_previous + address.service_time
    let stop : StopDict :=
      { address_id := address.id
        sequence := i
        estimated_arrival := pad2 (ct.ediv 60) ++ ":" ++ pad2 (ct.emod 60)
        distance_from_previous := distance_from_previous
        time_from_previous := (time_from_previous : ℚ) }
    let (stops, td, tt) := buildStops d addresses (i + 1) ct stop_idx rest
    (stop :: stops, distance_from_previous + td,
      time_from_previous + address.service_time + tt)

/-- Embeds `RouteOptimizationService.optimize_single_vehicle_route`.  The
`raise ValueError` on a capacity violation is the `Except.error`; the depot is
the hard-coded `(0.0, 0.0)` of the source. -/
def optimize_single_vehicle_route (dist : Coord → Coord → ℚ)
    (lookup : String → Option Coord) (vehicle : Vehicle)
    (addresses : List Address) : Except String RouteDict :=
  if addresses.isEmpty then
    .ok { vehicle_id := vehicle.id, stops := [], total_distance := 0,
          total_time := 0, total_cost := 0 }
  else
    let total_weight := (addresses.map (·.delivery_weight)).sum
    let total_volume := (addresses.map (·.delivery_volume)).sum
    if total_weight > vehicle.capacity ∨ total_volume > vehicle.capacity then
      .error ("Vehicle " ++ toString vehicle.id ++ " capacity exceeded")
    else
      let coords := matrixCoords lookup addresses (0, 0)
      let d := matrixOf dist coords
      match nearest_neighbor_tsp d coords.length 0 with
      | none => .error "KeyError"
      | some tour0 =>
        let tour := two_opt_improvement d tour0
        let (stops, td, tt) := buildStops d addresses 1 (8 * 60) (tour.headD 0) tour.tail
        let ret := d (tour.getLastD 0) (tour.headD 0)
        let total_distance := if stops.isEmpty then td else td + ret
        let total_time := if stops.isEmpty then tt else tt + calculate_travel_time ret 50
        let total_cost := total_distance * vehicle.cost_per_km
        .ok { vehicle_id := vehicle.id, stops := stops,
              total_distance := round2 total_distance, total_time := total_time,
              total_cost := round2 total_cost }

/-- The block boundaries of `optimize_multi_vehicle_routes`: each vehicle in
turn takes the next `addresses_per_vehicle` addresses (`q`), plus one extra
while the vehicle index is below the `remainder` (`r`).  Returns each vehicle
paired with its contiguous slice `addresses[start_idx:end_idx]`. -/
def assignBlocks (addrs : List Address) (q r : ℕ) :
    List Vehicle → ℕ → ℕ → List (Vehicle × List Address)
  | [], _, _ => []
  | v :: vs, i, start_idx =>
    let end_idx := start_idx + q + (if i < r then 1 else 0)
    (v, (addrs.drop start_idx).take (end_idx - start_idx)) ::
      assignBlocks addrs q r vs (i + 1) end_idx

/-- The per-vehicle loop body of `optimize_multi_vehicle_routes`: an empty
slice appends no route; a capacity `ValueError` raised by
`optimize_single_vehicle_route` propagates and discards all routes. -/
def routesOfBlocks (dist : Coord → Coord → ℚ) (lookup : String → Option Coord) :
    List (Vehicle × List Address) → Except String (List RouteDict)
  | [] => .ok []
  | (v, block) :: rest =>
    if block.isEmpty then routesOfBlocks dist lookup rest
    else do
      let route ← optimize_single_vehicle_route dist lookup v block
      let others ← routesOfBlocks dist lookup rest
      pure (route :: others)

/-- Embeds `RouteOptimizationService.optimize_multi_vehicle_routes`. -/
def optimize_multi_vehicle_routes (dist : Coord → Coord → ℚ)
    (lookup : String → Option Coord) (vehicles : List Vehicle)
    (addresses : List Address) : Except String (List RouteDict) :=
  if vehicles.isEmpty || addresses.isEmpty then .ok []
  else
    let addresses_per_vehicle := addresses.length / vehicles.length
    let remainder := addresses.length % vehicles.length
    routesOfBlocks dist lookup
      (assignBlocks addresses addresses_per_vehicle remainder vehicles 0 0)

/-- Embeds `app/schemas/schemas.py` `OptimizationRequest`. -/
structure OptimizationRequest where
  vehicle_ids : List ℕ
  address_ids : List ℕ
  optimization_type : String
  deriving Repr, DecidableEq

/-- The overall dict `optimize_routes` returns.  `optimization_time` is the
wall-clock duration measured with `time.time()`; real time is outside the
embedding and the field is fixed at `0`. -/
structure OptDict where
  routes : List RouteDict
  total_distance : ℚ
  total_time : ℤ
  total_cost : ℚ
  optimization_time : ℚ
  deriving Repr, DecidableEq

/-- The `selected_vehicles` filter of `optimize_routes`. -/
def selectedVehicles (req : OptimizationRequest) (vehicles : List Vehicle) :
    List Vehicle :=
  vehicles.filter (fun v => req.vehicle_ids.contains v.id)

/-- The `selected_addresses` filter of `optimize_routes`. -/
def selectedAddresses (req : OptimizationRequest) (addresses : List Address) :
    List Address :=
  addresses.filter (fun a => req.address_ids.contains a.id)

/-- Python `max(route['total_time'] for route in routes)` (routes non-empty). -/
def maxTotalTime : List RouteDict → ℤ
  | [] => 0
  | r :: rs => rs.foldl (fun m x => max m x.total_time) r.total_time

/-- Embeds `RouteOptimizationService.optimize_routes`. -/
def optimize_routes (dist : Coord → Coord → ℚ) (lookup : String → Option Coord)
    (req : OptimizationRequest) (vehicles : List Vehicle)
    (addresses : List Address) : Except String OptDict := do
  let selected_vehicles := selectedVehicles req vehicles
  let selected_addresses := selectedAddresses req addresses
  if selected_vehicles.isEmpty then throw "No valid vehicles found"
  else if selected_addresses.isEmpty then throw "No valid addresses found"
  else
    let routes ← match selected_vehicles with
      | [v] => do
        let route ← optimize_single_vehicle_route dist lookup v selected_addresses
        pure [route]
      | _ =>
        optimize_multi_vehicle_routes dist lookup selected_vehicles selected_addresses
    let total_distance := (routes.map (·.total_distance)).sum
    let total_time := maxTotalTime routes
    let total_cost := (routes.map (·.total_cost)).sum
    pure { routes := routes, total_distance := round2 total_distance,
           total_time := total_time, total_cost := round2 total_cost,
           optimization_time := 0 }

/-! ## `app/services/ros_pipeline.py`: geocoding, VROOM bridge, orchestrator -/

/-- The in-memory cache of `GeocodingService`, keyed by the normalized
address string. -/
abbrev Cache := List (String × Coord)

/-- The `cache_key` f-string of `GeocodingService.geocode_address`. -/
def cacheKey (a : Address) : String :=
  a.street_address ++ "_" ++ a.city ++ "_" ++ a.state ++ "_" ++ a.postal_code

/-- Embeds `GeocodingService._format_address`: `", ".join(filter(None, components))`
drops the falsy (empty) components. -/
def geo_format_address (a : Address) : String :=
  String.intercalate ", "
    (([a.street_address, a.city, a.state, a.postal_code, a.country]).filter
      (fun s => !s.isEmpty))

/-- What one `GeocodingService.geocode_address` call produces: the coordinate,
the cache afterwards, and whether the underlying lookup capability
(`self.geocoder.geocode`) was invoked. -/
structure GeoResult where
  coords : Coord
  cache : Cache
  invoked : Bool
  deriving Repr, DecidableEq

/-- Embeds `GeocodingService.geocode_address`: stored truthy coordinates bypass
everything; then the cache is consulted; only then is the lookup invoked, a
success is cached, and a miss or error returns the `(0.0, 0.0)` sentinel
without caching. -/
def geocode_address (lookup : String → Option Coord) (cache : Cache)
    (a : Address) : GeoResult :=
  if truthyQ a.latitude && truthyQ a.longitude then
    { coords := (a.latitude.getD 0, a.longitude.getD 0), cache := cache,
      invoked := false }
  else
    match cache.lookup (cacheKey a) with
    | some c => { coords := c, cache := cache, invoked := false }
    | none =>
      match lookup (geo_format_address a) with
      | some c =>
        { coords := c, cache := (cacheKey a, c) :: cache, invoked := true }
      | none => { coords := (0, 0), cache := cache, invoked := true }

/-- Python dict assignment `results[address.id] = coords`: replace the value
of an existing key, else append (insertion order). -/
def dictSet (k : ℕ) (v : Coord) (d : List (ℕ × Coord)) : List (ℕ × Coord) :=
  if d.any (fun p => p.1 = k) then
    d.map (fun p => if p.1 = k then (k, v) else p)
  else d ++ [(k, v)]

/-- The `for address in addresses:` loop of `batch_geocode_addresses`,
carrying the results dict built so far and the cache. -/
def batchLoop (lookup : String → Option Coord) :
    List (ℕ × Coord) × Cache → List Address → List (ℕ × Coord) × Cache
  | acc, [] => acc
  | (results, cache), a :: rest =>
    let r := geocode_address lookup cache a
    batchLoop lookup (dictSet a.id r.coords results, r.cache) rest

/-- Embeds `GeocodingService.batch_geocode_addresses`: each address geocoded in turn
(threading the cache), results collected in insertion order in a dict keyed
by address id.  The rate-limit `time.sleep(1)` has no observable effect in
the embedding. -/
def batch_geocode_addresses (lookup : String → Option Coord) (cache : Cache)
    (addresses : List Address) : List (ℕ × Coord) × Cache :=
  batchLoop lookup ([], cache) addresses

/-- One vehicle entry of the VROOM problem (`end` is spelled `end_` for Lean;
it always equals `start` in the source). -/
structure VroomVehicle where
  id : ℕ
  start : List ℚ
  end_ : List ℚ
  capacity : List ℤ
  skills : List ℕ
  time_window : List ℤ
  deriving Repr, DecidableEq

/-- One job entry of the VROOM problem; `time_windows` is present only when
both window columns are truthy. -/
structure VroomJob where
  id : ℕ
  location : List ℚ
  delivery : List ℤ
  service : ℤ
  skills : List ℕ
  priority : ℤ
  time_windows : Option (List (List ℤ))
  deriving Repr, DecidableEq

/-- The VROOM problem dict (the constant `options: {g: true}` carries no
information and is not modelled). -/
structure VroomProblem where
  vehicles : List VroomVehicle
  jobs : List VroomJob
  deriving Repr, DecidableEq

/-- Embeds `VROOMService._time_to_minutes`: `"HH:MM"` to minutes since midnight. -/
def time_to_minutes (s : String) : ℤ :=
  match s.splitOn ":" with
  | [h, m] => (h.toInt?.getD 0) * 60 + (m.toInt?.getD 0)
  | _ => 0

/-- Embeds `VROOMService.create_vroom_job`.  The depot passed to every vehicle is the
first value of the `coordinates` dict (`[0.0, 0.0]` when it is empty); job
locations are `[lon, lat]`. -/
def create_vroom_job (vehicles : List Vehicle) (addresses : List Address)
    (coordinates : List (ℕ × Coord)) : VroomProblem :=
  let depot_coords : List ℚ :=
    match coordinates with
    | [] => [0, 0]
    | (_, c) :: _ => [c.1, c.2]
  let vroom_vehicles := vehicles.map (fun v =>
    { id := v.id, start := depot_coords, end_ := depot_coords,
      capacity := [pyInt v.capacity], skills := [1],
      time_window := [480, 1020] : VroomVehicle })
  let vroom_jobs := addresses.map (fun a =>
    let coords := ((coordinates.lookup a.id).getD (0, 0))
    { id := a.id, location := [coords.2, coords.1],
      delivery := [pyInt a.delivery_weight], service := a.service_time * 60,
      skills := [1], priority := a.priority,
      time_windows :=
        if truthyS a.time_window_start && truthyS a.time_window_end then
          some [[time_to_minutes (a.time_window_start.getD "") * 60,
                 time_to_minutes (a.time_window_end.getD "") * 60]]
        else none : VroomJob })
  { vehicles := vroom_vehicles, jobs := vroom_jobs }

/-- One step of a VROOM solution route.  Steps whose `type` is not `"job"`
(`"start"`, `"end"`, ...) carry no job id in the wire format; the decoder
reads `job` only behind the `type == "job"` guard, so the field is total
here. -/
structure VroomStep where
  type : String
  job : ℕ
  arrival : ℤ
  distance : ℚ
  duration : ℚ
  deriving Repr, DecidableEq

/-- One route of a VROOM solution. -/
structure VroomRoute where
  vehicle : ℕ
  distance : ℚ
  duration : ℚ
  steps : List VroomStep
  deriving Repr, DecidableEq

/-- A VROOM solution body (`computing_times.total` is the only other key the
decoder reads). -/
structure VroomSolution where
  routes : List VroomRoute
  computing_total : ℚ
  deriving Repr, DecidableEq

/-- What `VROOMService.solve_optimization` hands back: the response JSON, or
an `{"error": ...}` dict on an HTTP error. -/
inductive VroomResponse where
  | error (msg : String)
  | ok (sol : VroomSolution)
  deriving Repr, DecidableEq

/-- Python `"error" in vroom_solution`. -/
def VroomResponse.hasError : VroomResponse → Bool
  | .error _ => true
  | .ok _ => false

/-- Embeds `ROSPipelineService._seconds_to_time`: seconds since midnight to
`"HH:MM"`. -/
def seconds_to_time (seconds : ℤ) : String :=
  let minutes := seconds.ediv 60
  pad2 (minutes.ediv 60) ++ ":" ++ pad2 (minutes.emod 60)

/-- The `for i, step in enumerate(route_data.get("steps", []))` loop of
`_process_vroom_solution`, carrying the `enumerate` index `i`: a stop for
every `"job"` step whose id names a known address (unknown ids are skipped),
`sequence` being the raw index over all steps. -/
def decodeFrom (addresses : List Address) : ℕ → List VroomStep → List StopDict
  | _, [] => []
  | i, step :: rest =>
    if step.type = "job" then
      match addresses.find? (fun a => a.id = step.job) with
      | some address =>
        { address_id := address.id, sequence := i,
          estimated_arrival := seconds_to_time step.arrival,
          distance_from_previous := step.distance / 1000,
          time_from_previous := step.duration / 60 } ::
          decodeFrom addresses (i + 1) rest
      | none => decodeFrom addresses (i + 1) rest
    else decodeFrom addresses (i + 1) rest

/-- The stop list decoded from a VROOM route's steps (`enumerate` starts
at 0). -/
def decodeStops (addresses : List Address) (steps : List VroomStep) :
    List StopDict :=
  decodeFrom addresses 0 steps

/-- The route loop of `_process_vroom_solution`: routes naming an unknown
vehicle are skipped (`continue`); the rest yield a route dict plus the
running sum of distances and costs and running max of durations. -/
def processRoutes (vehicles : List Vehicle) (addresses : List Address) :
    List VroomRoute → List RouteDict × ℚ × ℚ × ℚ
  | [] => ([], 0, 0, 0)
  | rt :: rest =>
    match vehicles.find? (fun v => v.id = rt.vehicle) with
    | none => processRoutes vehicles addresses rest
    | some vehicle =>
      let route_distance := rt.distance / 1000
      let route_time := rt.duration / 60
      let route_cost := route_distance * vehicle.cost_per_km
      let stops := decodeStops addresses rt.steps
      let (routes, td, tt, tc) := processRoutes vehicles addresses rest
      ({ vehicle_id := rt.vehicle, stops := stops,
         total_distance := round2 route_distance, total_time := pyInt route_time,
         total_cost := round2 route_cost } :: routes,
       route_distance + td, max route_time tt, route_cost + tc)

/-- The dict the pipeline hands back on a completed optimization.  The
fallback branch's dict has no `geocoded_addresses` and no
`optimization_engine` key, hence the `Option` fields. -/
structure PipelineOutcome where
  routes : List RouteDict
  total_distance : ℚ
  total_time : ℤ
  total_cost : ℚ
  optimization_time : ℚ
  geocoded_addresses : Option ℕ
  optimization_engine : Option String
  deriving Repr, DecidableEq

/-- Embeds `ROSPipelineService._process_vroom_solution`. -/
def process_vroom_solution (solution : VroomSolution) (vehicles : List Vehicle)
    (addresses : List Address) (coordinates : List (ℕ × Coord)) :
    PipelineOutcome :=
  let (routes, total_distance, total_time, total_cost) :=
    processRoutes vehicles addresses solution.routes
  { routes := routes, total_distance := round2 total_distance,
    total_time := pyInt total_time, total_cost := round2 total_cost,
    optimization_time := solution.computing_total / 1000,
    geocoded_addresses := some coordinates.length,
    optimization_engine := some "VROOM" }

/-- The `OptimizationRequest` `_fallback_optimization` builds: every given
vehicle and address id, optimization type `"distance"`. -/
def fullRequest (vehicles : List Vehicle) (addresses : List Address) :
    OptimizationRequest :=
  { vehicle_ids := vehicles.map (·.id), address_ids := addresses.map (·.id),
    optimization_type := "distance" }

/-- Embeds `ROSPipelineService._fallback_optimization`: the built-in optimizer called
with a request naming every given vehicle and address. -/
def fallback_optimization (dist : Coord → Coord → ℚ)
    (lookup : String → Option Coord) (vehicles : List Vehicle)
    (addresses : List Address) : Except String OptDict :=
  optimize_routes dist lookup (fullRequest vehicles addresses) vehicles addresses

/-- The fallback branch of the pipeline returns the optimizer's dict as-is:
no `geocoded_addresses`, no `optimization_engine` key. -/
def fallbackOutcome (od : OptDict) : PipelineOutcome :=
  { routes := od.routes, total_distance := od.total_distance,
    total_time := od.total_time, total_cost := od.total_cost,
    optimization_time := od.optimization_time, geocoded_addresses := none,
    optimization_engine := none }

/-- What a `process_optimization_request` call can end in: the returned
`{"error": ...}` dict when nothing geocodes, an uncaught exception raised by
the fallback optimizer, or a completed outcome dict. -/
inductive PipelineResult where
  | errorDict (msg : String)
  | raised (e : String)
  | outcome (o : PipelineOutcome)
  deriving Repr, DecidableEq

/-- The `valid_addresses` filter of `process_optimization_request`: addresses
whose batch-geocoded coordinate is not the `(0.0, 0.0)` sentinel. -/
def validAddressesOf (lookup : String → Option Coord) (cache : Cache)
    (addresses : List Address) : List Address :=
  let coordinates := (batch_geocode_addresses lookup cache addresses).1
  addresses.filter (fun a => ((coordinates.lookup a.id).getD (0, 0)) ≠ (0, 0))

/-- The `valid_coordinates` filter of `process_optimization_request`. -/
def validCoordinatesOf (lookup : String → Option Coord) (cache : Cache)
    (addresses : List Address) : List (ℕ × Coord) :=
  (batch_geocode_addresses lookup cache addresses).1.filter
    (fun p => p.2 ≠ (0, 0))

/-- Embeds `ROSPipelineService.process_optimization_request`: geocode, filter the
sentinel coordinates, attempt VROOM, fall back to the built-in optimizer when
the response carries an error.  `solver` stands for the
`create job → solve_optimization` HTTP round trip. -/
def process_optimization_request (dist : Coord → Coord → ℚ)
    (lookup : String → Option Coord) (solver : VroomProblem → VroomResponse)
    (cache : Cache) (vehicles : List Vehicle) (addresses : List Address) :
    PipelineResult :=
  let valid_addresses := validAddressesOf lookup cache addresses
  let valid_coordinates := validCoordinatesOf lookup cache addresses
  if valid_addresses.isEmpty then .errorDict "No addresses could be geocoded"
  else
    let vroom_problem := create_vroom_job vehicles valid_addresses valid_coordinates
    match solver vroom_problem with
    | .error _ =>
      match fallback_optimization dist lookup vehicles valid_addresses with
      | .ok od => .outcome (fallbackOutcome od)
      | .error e => .raised e
    | .ok sol =>
      .outcome (process_vroom_solution sol vehicles valid_addresses valid_coordinates)

/-! ## Projections of intermediate values of `optimize_single_vehicle_route`

These recompute, from the same inputs, values the method holds in local
variables (the distance matrix, the improved tour, the return-to-depot leg),
so that theorems can speak about them. -/

/-- The distance-matrix function `optimize_single_vehicle_route` builds
(depot `(0.0, 0.0)` plus the geocoded addresses). -/
def matOf (dist : Coord → Coord → ℚ) (lookup : String → Option Coord)
    (addresses : List Address) : ℕ → ℕ → ℚ :=
  matrixOf dist (matrixCoords lookup addresses (0, 0))

/-- The tour `optimize_single_vehicle_route` walks: nearest neighbor then
2-opt ( `[]` in the unreachable `KeyError` case). -/
def tourOf (dist : Coord → Coord → ℚ) (lookup : String → Option Coord)
    (addresses : List Address) : List ℕ :=
  let coords := matrixCoords lookup addresses (0, 0)
  match nearest_neighbor_tsp (matrixOf dist coords) coords.length 0 with
  | none => []
  | some tour0 => two_opt_improvement (matrixOf dist coords) tour0

/-- The return-to-depot leg `distance_matrix[tour[-1]][tour[0]]` added to the
totals when the route has stops. -/
def retLegOf (dist : Coord → Coord → ℚ) (lookup : String → Option Coord)
    (addresses : List Address) : ℚ :=
  let t := tourOf dist lookup addresses
  matOf dist lookup addresses (t.getLastD 0) (t.headD 0)

/-- The summed `address.service_time` contributions of the non-depot tour
nodes (each node `idx` visits `addresses[idx - 1]`). -/
def svcSum (addresses : List Address) (tour : List ℕ) : ℤ :=
  (tour.tail.map (fun idx => (addresses.getD (idx - 1) dummyAddress).service_time)).sum

/-- The `"job"`-step ids of a VROOM route's steps, in step order. -/
def jobIds (steps : List VroomStep) : List ℕ :=
  steps.filterMap (fun s => if s.type = "job" then some s.job else none)

/-- The engine tag of a completed pipeline run: `some (engine field)` when
the pipeline produced an outcome dict, `none` otherwise. -/
def engineOf : PipelineResult → Option (Option String)
  | .outcome o => some o.optimization_engine
  | _ => none

/-! ## Concrete fixtures

Closed inputs on which counterexample and witness theorems evaluate the
embedded code. -/

/-- A distance capability that is identically zero. -/
def q0 : ℕ → ℕ → ℚ := fun _ _ => 0

/-- A unit distance capability: `0` on equal coordinates, else `1`. -/
def dist0 : Coord → Coord → ℚ := fun c1 c2 => if c1 = c2 then 0 else 1

/-- A distance capability whose legs are `1/16` km, so that a two-leg route
totals `0.125` km — a value `round(x, 2)` does not fix. -/
def dist8 : Coord → Coord → ℚ := fun c1 c2 => if c1 = c2 then 0 else 1/16

/-- A geocoding capability that never finds anything. -/
def lookup0 : String → Option Coord := fun _ => none

/-- A geocoding capability that always answers `(2, 3)`. -/
def lookup1 : String → Option Coord := fun _ => some (2, 3)

/-- A delivery address with stored coordinates `(1, 1)`. -/
def a0 : Address :=
  { id := 7, street_address := "22 Main St", city := "Colombo", state := "WP",
    postal_code := "00100", country := "LK", latitude := some 1,
    longitude := some 1, delivery_weight := 1, delivery_volume := 1,
    time_window_start := none, time_window_end := none, service_time := 0,
    priority := 1 }

/-- The fixture `a0` under another id. -/
def addrN (n : ℕ) : Address := { a0 with id := n }

/-- An address with no stored coordinates. -/
def aNone : Address := { a0 with id := 8, latitude := none, longitude := none }

/-- An address whose stored latitude is the falsy `0.0`. -/
def aZero : Address := { a0 with id := 9, latitude := some 0, longitude := some 5 }

/-- A vehicle of capacity 100 at unit cost per km. -/
def v0 : Vehicle := { id := 3, capacity := 100, cost_per_km := 1 }

/-- A second vehicle. -/
def v1 : Vehicle := { id := 4, capacity := 100, cost_per_km := 2 }

/-- A solver capability that always reports an error. -/
def solverErr : VroomProblem → VroomResponse := fun _ => .error "boom"

/-- A synthetic VROOM `"job"` step naming address `7`. -/
def step1 : VroomStep :=
  { type := "job", job := 7, arrival := 30000, distance := 1500, duration := 300 }

/-- A synthetic VROOM route for vehicle `3` whose only step is `step1`. -/
def rt1 : VroomRoute :=
  { vehicle := 3, distance := 2500, duration := 720, steps := [step1] }

/-- A synthetic VROOM solution holding `rt1`. -/
def sol1 : VroomSolution := { routes := [rt1], computing_total := 10 }

/-- An address whose delivery weight exceeds `v0`'s capacity. -/
def aHeavy : Address := { a0 with id := 11, delivery_weight := 200 }

/-- Three stops, ids 1–3. -/
def addrs3 : List Address := [addrN 1, addrN 2, addrN 3]

/-- Five stops, ids 1–5. -/
def addrs5 : List Address := [addrN 1, addrN 2, addrN 3, addrN 4, addrN 5]

/-- A zero dict used only as the default of `Except.toOption.getD` below. -/
def defaultOptDict : OptDict :=
  { routes := [], total_distance := 0, total_time := 0, total_cost := 0,
    optimization_time := 0 }

/-- The concrete optimizer result on two vehicles and three stops. -/
def res3 : OptDict :=
  (optimize_routes dist0 lookup0 (fullRequest [v0, v1] addrs3) [v0, v1]
    addrs3).toOption.getD defaultOptDict

/-- A zero route dict used only as the default of `Except.toOption.getD`
below. -/
def defaultRouteDict : RouteDict :=
  { vehicle_id := 0, stops := [], total_distance := 0, total_time := 0,
    total_cost := 0 }

/-- The concrete single-vehicle route on the `1/16`-km-leg distance
capability. -/
def res8 : RouteDict :=
  (optimize_single_vehicle_route dist8 lookup0 v0 [a0]).toOption.getD
    defaultRouteDict

/-- The concrete fallback-optimizer result behind `C1`'s witness. -/
def od1 : OptDict :=
  (fallback_optimization dist0 lookup0 [v0]
    (validAddressesOf lookup0 [] [a0])).toOption.getD defaultOptDict

/-! ## 2-opt never worsens a tour -/

/-- One candidate pair leaves the running best tour no longer than before:
the candidate replaces it only under a strict distance comparison. -/
theorem twoOptStep_fst_le (d : ℕ → ℕ → ℚ) (tour : List ℕ) (s : List ℕ × Bool)
    (p : ℕ × ℕ) :
    calculate_tour_distance d (twoOptStep d tour s p).1 ≤
      calculate_tour_distance d s.1 := by
  rcases s with ⟨best, improved⟩
  rcases p with ⟨i, j⟩
  simp only [twoOptStep]
  split_ifs with h1 h2
  · exact le_rfl
  · exact le_of_lt h2
  · exact le_rfl

/-- Folding any pair list through `twoOptStep` never increases the best
tour's distance. -/
theorem twoOptFold_fst_le (d : ℕ → ℕ → ℚ) (tour : List ℕ)
    (pairs : List (ℕ × ℕ)) (s : List ℕ × Bool) :
    calculate_tour_distance d ((pairs.foldl (twoOptStep d tour) s).1) ≤
      calculate_tour_distance d s.1 := by
  induction pairs generalizing s with
  | nil => exact le_rfl
  | cons p ps ih =>
    exact le_trans (ih (twoOptStep d tour s p)) (twoOptStep_fst_le d tour s p)

/-- However many passes run, the 2-opt loop never increases the total tour
distance. -/
theorem twoOptLoop_le (d : ℕ → ℕ → ℚ) :
    ∀ (fuel : ℕ) (tour : List ℕ),
      calculate_tour_distance d (twoOptLoop d fuel tour) ≤
        calculate_tour_distance d tour
  | 0, _ => le_rfl
  | fuel + 1, tour => by
    have hpass := twoOptFold_fst_le d tour (twoOptPairs tour.length) (tour, false)
    unfold twoOptLoop
    rcases h : twoOptPass d tour with ⟨best, improved⟩
    have hb : calculate_tour_distance d best ≤ calculate_tour_distance d tour := by
      unfold twoOptPass at h
      rw [h] at hpass
      exact hpass
    cases improved with
    | true => simpa using le_trans (twoOptLoop_le d fuel best) hb
    | false => simpa using hb

/-- C2 counterexample: on a zero-node matrix the nearest-neighbor solver does
not return a degenerate tour; `unvisited.remove(start_node)` raises `KeyError`
(embedded as `none`), refuting the claim for "zero . . . node" matrices. -/
theorem C2_cex : nearest_neighbor_tsp q0 0 0 = none := rfl

/-- C2 (amended): on every one-node distance matrix with zero diagonal the
solver returns the degenerate tour `[0]`, 2-opt leaves it unchanged, its total
distance is zero, and an empty stop set never reaches the solver:
`optimize_single_vehicle_route` returns an empty zero-total route at once.  A
zero-node matrix, which no code path builds, instead raises (see the
counterexample). -/
theorem C2_degenerate_tours (d : ℕ → ℕ → ℚ) (dist : Coord → Coord → ℚ)
    (lookup : String → Option Coord) (v : Vehicle) (hd : d 0 0 = 0) :
    nearest_neighbor_tsp d 1 0 = some [0] ∧
    two_opt_improvement d [0] = [0] ∧
    calculate_tour_distance d [0] = 0 ∧
    optimize_single_vehicle_route dist lookup v [] =
      .ok { vehicle_id := v.id, stops := [], total_distance := 0,
            total_time := 0, total_cost := 0 } := by
  refine ⟨rfl, rfl, ?_, rfl⟩
  simp [calculate_tour_distance, pathDist, hd]

/-- C2 witness: the amended claim at the zero matrix and the concrete
vehicle `v0`. -/
theorem C2_degenerate_tours_witness :
    nearest_neighbor_tsp q0 1 0 = some [0] ∧
    two_opt_improvement q0 [0] = [0] ∧
    calculate_tour_distance q0 [0] = 0 ∧
    optimize_single_vehicle_route dist0 lookup0 v0 [] =
      .ok { vehicle_id := v0.id, stops := [], total_distance := 0,
            total_time := 0, total_cost := 0 } :=
  C2_degenerate_tours q0 dist0 lookup0 v0 rfl

/-- C5: for every distance matrix and every tour produced by nearest-neighbor
construction, the closed-tour distance of the 2-opt-improved tour is at most
the closed-tour distance of the nearest-neighbor tour it started from. -/
theorem C5_two_opt_monotone (d : ℕ → ℕ → ℚ) (n : ℕ) (tour : List ℕ)
    (h : nearest_neighbor_tsp d n 0 = some tour) :
    calculate_tour_distance d (two_opt_improvement d tour) ≤
      calculate_tour_distance d tour :=
  twoOptLoop_le d (Nat.factorial tour.length + 1) tour

/-- C5 witness: the property instantiated on the 2-node zero matrix, whose
nearest-neighbor tour is `[0, 1]`. -/
theorem C5_two_opt_monotone_witness :
    calculate_tour_distance q0 (two_opt_improvement q0 [0, 1]) ≤
      calculate_tour_distance q0 [0, 1] :=
  C5_two_opt_monotone q0 2 [0, 1] rfl


/-! ## Shared structural lemmas: tours, stops, partitions -/


theorem foldl_min_mem (key : ℕ → ℚ) :
    ∀ (xs : List ℕ) (x : ℕ),
      xs.foldl (fun b y => if key y < key b then y else b) x ∈ x :: xs := by
  intro xs
  induction xs with
  | nil => intro x; simp
  | cons y ys ih =>
    intro x
    simp only [List.foldl_cons]
    rcases List.mem_cons.mp (ih (if key y < key x then y else x)) with h | h
    · rw [h]
      split
      · exact List.mem_cons_of_mem _ (List.mem_cons_self _ _)
      · exact List.mem_cons_self _ _
    · exact List.mem_cons_of_mem _ (List.mem_cons_of_mem _ h)

theorem argminKey_mem (key : ℕ → ℚ) (l : List ℕ) (m : ℕ)
    (h : argminKey key l = some m) : m ∈ l := by
  cases l with
  | nil => simp [argminKey] at h
  | cons x xs =>
    simp only [argminKey, Option.some.injEq] at h
    exact h ▸ foldl_min_mem key xs x

theorem nnLoop_perm (d : ℕ → ℕ → ℚ) :
    ∀ (fuel : ℕ) (c : ℕ) (l : List ℕ), fuel = l.length →
      (nnLoop d fuel c l).Perm l := by
  intro fuel
  induction fuel with
  | zero =>
    intro c l h
    cases l with
    | nil => simp [nnLoop]
    | cons a as => simp at h
  | succ n ih =>
    intro c l h
    cases l with
    | nil => simp at h
    | cons a as =>
      rcases hm : argminKey (fun x => d c x) (a :: as) with _ | m
      · simp [argminKey] at hm
      · have hmem : m ∈ a :: as := argminKey_mem _ _ _ hm
        rw [List.length_cons] at h
        have hlen : n = ((a :: as).erase m).length := by
          rw [List.length_erase_of_mem hmem, List.length_cons]
          omega
        have hrec := ih m ((a :: as).erase m) hlen
        have h1 : nnLoop d (n + 1) c (a :: as)
            = m :: nnLoop d n m ((a :: as).erase m) := by
          simp [nnLoop, hm]
        rw [h1]
        exact (hrec.cons m).trans (List.perm_cons_erase hmem).symm

theorem nn_tsp_perm (d : ℕ → ℕ → ℚ) (n : ℕ) (t : List ℕ)
    (h : nearest_neighbor_tsp d n 0 = some t) :
    t.Perm (List.range n) ∧ t.headD 0 = 0 := by
  unfold nearest_neighbor_tsp at h
  split at h
  · next hpos =>
    rw [Option.some.injEq] at h
    subst h
    refine ⟨?_, rfl⟩
    have h0 : (0 : ℕ) ∈ List.range n := List.mem_range.mpr hpos
    have := nnLoop_perm d ((List.range n).erase 0).length 0 ((List.range n).erase 0) rfl
    exact (this.cons 0).trans (List.perm_cons_erase h0).symm
  · exact absurd h (by simp)



theorem reverseSegment_perm (l : List ℕ) (i j : ℕ) (hij : i ≤ j) :
    (reverseSegment l i j).Perm l := by
  unfold reverseSegment
  rw [List.append_assoc]
  conv_rhs => rw [← List.take_append_drop i l]
  apply List.Perm.append_left
  have hsplit : l.drop i = (l.drop i).take (j - i) ++ (l.drop i).drop (j - i) :=
    (List.take_append_drop _ _).symm
  have hdd : (l.drop i).drop (j - i) = l.drop j := by
    rw [List.drop_drop, Nat.add_sub_cancel' hij]
  conv_rhs => rw [hsplit, hdd]
  exact List.Perm.append_right _ (List.reverse_perm _)

theorem reverseSegment_head (l : List ℕ) (i j : ℕ) (hi : 1 ≤ i) :
    (reverseSegment l i j).headD 0 = l.headD 0 := by
  cases l with
  | nil => simp [reverseSegment]
  | cons x xs =>
    cases i with
    | zero => omega
    | succ k =>
      simp [reverseSegment, List.take_succ_cons, List.cons_append]

theorem twoOptPairs_bounds (n i j : ℕ) (h : (i, j) ∈ twoOptPairs n) :
    1 ≤ i ∧ i ≤ j := by
  unfold twoOptPairs pyRange at h
  simp only [List.mem_flatMap, List.mem_map, List.mem_filter, List.mem_range,
    decide_eq_true_eq, Prod.mk.injEq] at h
  obtain ⟨a, ⟨_, ha1⟩, b, ⟨_, hab⟩, hi, hj⟩ := h
  subst hi; subst hj
  omega

theorem twoOptFold_inv (d : ℕ → ℕ → ℚ) (tour : List ℕ) :
    ∀ (pairs : List (ℕ × ℕ)) (s : List ℕ × Bool),
      (∀ p ∈ pairs, 1 ≤ p.1 ∧ p.1 ≤ p.2) →
      s.1.Perm tour → s.1.headD 0 = tour.headD 0 →
      ((pairs.foldl (twoOptStep d tour) s).1).Perm tour ∧
        ((pairs.foldl (twoOptStep d tour) s).1).headD 0 = tour.headD 0 := by
  intro pairs
  induction pairs with
  | nil => intro s _ h1 h2; exact ⟨h1, h2⟩
  | cons p ps ih =>
    intro s hp h1 h2
    simp only [List.foldl_cons]
    apply ih
    · intro q hq; exact hp q (List.mem_cons_of_mem _ hq)
    · rcases s with ⟨best, improved⟩
      rcases p with ⟨i, j⟩
      have hb := hp (i, j) (List.mem_cons_self _ _)
      simp only [twoOptStep]
      split_ifs
      · exact h1
      · exact (reverseSegment_perm tour i j hb.2)
      · exact h1
    · rcases s with ⟨best, improved⟩
      rcases p with ⟨i, j⟩
      have hb := hp (i, j) (List.mem_cons_self _ _)
      simp only [twoOptStep]
      split_ifs
      · exact h2
      · exact (reverseSegment_head tour i j hb.1)
      · exact h2

theorem twoOptPass_inv (d : ℕ → ℕ → ℚ) (tour : List ℕ) :
    (twoOptPass d tour).1.Perm tour ∧
      (twoOptPass d tour).1.headD 0 = tour.headD 0 := by
  unfold twoOptPass
  exact twoOptFold_inv d tour (twoOptPairs tour.length) (tour, false)
    (fun p hp => by rcases p with ⟨i, j⟩; exact twoOptPairs_bounds _ _ _ hp)
    (List.Perm.refl _) rfl

theorem twoOptLoop_inv (d : ℕ → ℕ → ℚ) :
    ∀ (fuel : ℕ) (tour : List ℕ),
      (twoOptLoop d fuel tour).Perm tour ∧
        (twoOptLoop d fuel tour).headD 0 = tour.headD 0
  | 0, tour => ⟨List.Perm.refl _, rfl⟩
  | fuel + 1, tour => by
    have hpass := twoOptPass_inv d tour
    unfold twoOptLoop
    rcases h : twoOptPass d tour with ⟨best, improved⟩
    rw [h] at hpass
    cases improved with
    | true =>
      have hrec := twoOptLoop_inv d fuel best
      exact ⟨hrec.1.trans hpass.1, hrec.2.trans hpass.2⟩
    | false => exact ⟨hpass.1, hpass.2⟩

theorem two_opt_inv (d : ℕ → ℕ → ℚ) (tour : List ℕ) :
    (two_opt_improvement d tour).Perm tour ∧
      (two_opt_improvement d tour).headD 0 = tour.headD 0 :=
  twoOptLoop_inv d _ tour



theorem range'_map_getD (f : Address → ℕ) :
    ∀ (l : List Address),
      (List.range' 1 l.length).map (fun idx => f (l.getD (idx - 1) dummyAddress))
        = l.map f := by
  intro l
  induction l with
  | nil => simp
  | cons a as ih =>
    rw [List.length_cons, List.range'_succ 1 as.length 1, List.map_cons]
    have h1 : f ((a :: as).getD (1 - 1) dummyAddress) = f a := rfl
    rw [h1, List.map_cons]
    congr 1
    rw [List.range'_eq_map_range 2 as.length, List.map_map]
    rw [← ih, List.range'_eq_map_range 1 as.length, List.map_map]
    apply List.map_congr_left
    intro x _
    simp only [Function.comp_apply]
    have h2 : 2 + x - 1 = x + 1 := by omega
    have h3 : 1 + x - 1 = x := by omega
    rw [h2, h3]
    rfl

theorem buildStops_spec (d : ℕ → ℕ → ℚ) (addrs : List Address) :
    ∀ (l : List ℕ) (i : ℕ) (ct : ℤ) (prev : ℕ),
      ((buildStops d addrs i ct prev l).1.map (fun s => s.sequence)
          = List.range' i l.length) ∧
      ((buildStops d addrs i ct prev l).1.map (fun s => s.address_id)
          = l.map (fun idx => (addrs.getD (idx - 1) dummyAddress).id)) ∧
      ((buildStops d addrs i ct prev l).2.1
          = ((buildStops d addrs i ct prev l).1.map
              (fun s => s.distance_from_previous)).sum) ∧
      (((buildStops d addrs i ct prev l).2.2 : ℚ)
          = ((buildStops d addrs i ct prev l).1.map
              (fun s => s.time_from_previous)).sum
            + ((l.map (fun idx =>
                (addrs.getD (idx - 1) dummyAddress).service_time)).sum : ℚ)) := by
  intro l
  induction l with
  | nil => intro i ct prev; simp [buildStops]
  | cons idx rest ih =>
    intro i ct prev
    have hrec := ih (i + 1)
      (ct + calculate_travel_time (d prev idx) 50
        + (addrs.getD (idx - 1) dummyAddress).service_time) idx
    simp only [buildStops, List.map_cons, List.length_cons, List.sum_cons]
    rw [List.range'_succ i rest.length 1]
    refine ⟨by rw [hrec.1], by rw [hrec.2.1], ?_, ?_⟩
    · rw [hrec.2.2.1]
    · push_cast
      rw [hrec.2.2.2]
      push_cast
      ring



theorem succ_map_range (n : ℕ) :
    (List.range n).map Nat.succ = List.range' 1 n := by
  rw [List.range'_eq_map_range]
  apply List.map_congr_left
  intro x _
  omega

theorem osvr_ok_spec (dist : Coord → Coord → ℚ) (lookup : String → Option Coord)
    (v : Vehicle) (addrs : List Address) (r : RouteDict)
    (h : optimize_single_vehicle_route dist lookup v addrs = .ok r) :
    r.stops.map (fun s => s.sequence) = List.range' 1 r.stops.length ∧
    (r.stops.map (fun s => s.address_id)).Perm (addrs.map (fun a => a.id)) := by
  unfold optimize_single_vehicle_route at h
  split at h
  · next hemp =>
    rw [Except.ok.injEq] at h
    subst h
    rw [List.isEmpty_iff] at hemp
    subst hemp
    simp
  · next hemp =>
    dsimp only at h
    split at h
    · exact absurd h (by simp)
    · split at h
      · exact absurd h (by simp)
      · next tour0 heq =>
        rcases hb : buildStops (matrixOf dist (matrixCoords lookup addrs (0, 0)))
            addrs 1 (8 * 60)
            ((two_opt_improvement (matrixOf dist (matrixCoords lookup addrs (0, 0))) tour0).headD 0)
            ((two_opt_improvement (matrixOf dist (matrixCoords lookup addrs (0, 0))) tour0).tail)
          with ⟨stops, td, tt⟩
        rw [hb] at h
        simp only at h
        rw [Except.ok.injEq] at h
        subst h
        simp only []
        set dm := matrixOf dist (matrixCoords lookup addrs (0, 0)) with hdm
        have hlen : (matrixCoords lookup addrs (0, 0)).length = addrs.length + 1 := by
          simp [matrixCoords]
        rw [hlen] at heq
        have hnn := nn_tsp_perm dm _ tour0 heq
        have hto := two_opt_inv dm tour0
        have hperm : (two_opt_improvement dm tour0).Perm (List.range (addrs.length + 1)) :=
          hto.1.trans hnn.1
        have hhead : (two_opt_improvement dm tour0).headD 0 = 0 := hto.2.trans hnn.2
        cases htc : two_opt_improvement dm tour0 with
        | nil =>
          rw [htc] at hperm
          have := hperm.length_eq
          simp at this
        | cons t0 ts =>
          rw [htc] at hperm hhead hb
          have ht0 : t0 = 0 := by simpa using hhead
          subst ht0
          have hts : ts.Perm (List.range' 1 addrs.length) := by
            have hr : List.range (addrs.length + 1) = 0 :: List.range' 1 addrs.length := by
              rw [List.range_succ_eq_map, succ_map_range]
            rw [hr] at hperm
            exact hperm.cons_inv
          simp only [List.headD_cons, List.tail_cons] at hb
          have hfst : stops = (buildStops dm addrs 1 (8 * 60) 0 ts).1 := by rw [hb]
          obtain ⟨hseq, hids, -, -⟩ := buildStops_spec dm addrs ts 1 (8 * 60) 0
          have hsl : stops.length = ts.length := by
            rw [hfst, ← List.length_map _ (fun s => s.sequence), hseq, List.length_range']
          constructor
          · rw [hfst, hseq, ← hfst, hsl]
          · rw [hfst, hids, ← range'_map_getD (fun a => a.id) addrs]
            exact hts.map _



theorem assignBlocks_spec (addrs : List Address) (q r : ℕ) :
    ∀ (vs : List Vehicle) (i start : ℕ),
      r ≤ i + vs.length →
      start + q * vs.length + (r - i) = addrs.length →
      (((assignBlocks addrs q r vs i start).map (fun p => p.2)).flatten
          = addrs.drop start) ∧
      ((assignBlocks addrs q r vs i start).map (fun p => p.2.length)
          = (List.range vs.length).map
              (fun k => q + if i + k < r then 1 else 0)) := by
  intro vs
  induction vs with
  | nil =>
    intro i start hri h
    simp only [List.length_nil, Nat.mul_zero] at h
    simp only [List.length_nil, Nat.add_zero] at hri
    simp only [assignBlocks, List.map_nil, List.flatten_nil, List.range_zero]
    have : start = addrs.length := by omega
    exact ⟨by rw [this, List.drop_length], rfl⟩
  | cons v rest ih =>
    intro i start hri h
    rw [List.length_cons] at hri h
    rw [Nat.mul_succ] at h
    have havail : addrs.length - start ≥ q + (if i < r then 1 else 0) := by
      split_ifs <;> omega
    simp only [assignBlocks, List.map_cons, List.flatten_cons, List.length_cons,
      List.range_succ_eq_map, List.map_cons, List.map_map]
    have hone : start + q + (if i < r then 1 else 0) - start
        = q + (if i < r then 1 else 0) := by omega
    have hbl : ((addrs.drop start).take (start + q + (if i < r then 1 else 0) - start)).length
        = q + (if i < r then 1 else 0) := by
      rw [List.length_take, List.length_drop, hone]
      omega
    have hrec := ih (i + 1) (start + q + (if i < r then 1 else 0))
      (by omega) (by split_ifs <;> omega)
    refine ⟨?_, ?_⟩
    · rw [hrec.1, hone]
      have hdd : addrs.drop (start + q + (if i < r then 1 else 0))
          = (addrs.drop start).drop (q + (if i < r then 1 else 0)) := by
        rw [List.drop_drop]
        congr 1
        omega
      rw [hdd, List.take_append_drop]
    · rw [hrec.2, hbl]
      simp only [Nat.add_zero]
      congr 1
      apply List.map_congr_left
      intro k _
      simp only [Function.comp_apply]
      rw [show i + Nat.succ k = i + 1 + k from by omega]



theorem except_bind_ok {α β : Type} (a : α) (f : α → Except String β) :
    ((Except.ok a : Except String α) >>= f) = f a := rfl

theorem except_bind_error {α β : Type} (e : String) (f : α → Except String β) :
    ((Except.error e : Except String α) >>= f) = Except.error e := rfl

theorem assignBlocks_main (addrs : List Address) (vs : List Vehicle)
    (h : vs ≠ []) :
    (((assignBlocks addrs (addrs.length / vs.length) (addrs.length % vs.length)
          vs 0 0).map (fun p => p.2)).flatten = addrs) ∧
    ((assignBlocks addrs (addrs.length / vs.length) (addrs.length % vs.length)
          vs 0 0).map (fun p => p.2.length)
        = (List.range vs.length).map (fun k =>
            addrs.length / vs.length +
              if k < addrs.length % vs.length then 1 else 0)) := by
  have hpos : 0 < vs.length := List.length_pos.mpr h
  have hmod : addrs.length % vs.length < vs.length := Nat.mod_lt _ hpos
  have harith : 0 + (addrs.length / vs.length) * vs.length
      + (addrs.length % vs.length - 0) = addrs.length := by
    rw [Nat.zero_add, Nat.sub_zero, Nat.mul_comm, Nat.div_add_mod]
  obtain ⟨h1, h2⟩ := assignBlocks_spec addrs _ _ vs 0 0 (by omega) harith
  constructor
  · rw [h1, List.drop_zero]
  · rw [h2]
    apply List.map_congr_left
    intro k _
    rw [Nat.zero_add]

theorem routesOfBlocks_spec (dist : Coord → Coord → ℚ)
    (lookup : String → Option Coord) :
    ∀ (blocks : List (Vehicle × List Address)) (routes : List RouteDict),
      routesOfBlocks dist lookup blocks = .ok routes →
      (∀ rt ∈ routes,
        rt.stops.map (fun s => s.sequence) = List.range' 1 rt.stops.length) ∧
      ((routes.map (fun rt => rt.stops.map (fun s => s.address_id))).flatten).Perm
        (((blocks.map (fun p => p.2)).flatten).map (fun a => a.id)) := by
  intro blocks
  induction blocks with
  | nil =>
    intro routes h
    simp only [routesOfBlocks, Except.ok.injEq] at h
    subst h
    simp
  | cons p rest ih =>
    intro routes h
    rcases p with ⟨v, block⟩
    simp only [routesOfBlocks] at h
    split at h
    · next hemp =>
      obtain ⟨h1, h2⟩ := ih routes h
      rw [List.isEmpty_iff] at hemp
      subst hemp
      exact ⟨h1, by simpa using h2⟩
    · cases hr : optimize_single_vehicle_route dist lookup v block with
      | error e =>
        rw [hr, except_bind_error] at h
        exact absurd h (by simp)
      | ok rt =>
        rw [hr, except_bind_ok] at h
        cases hrest : routesOfBlocks dist lookup rest with
        | error e =>
          rw [hrest, except_bind_error] at h
          exact absurd h (by simp)
        | ok rts =>
          rw [hrest, except_bind_ok] at h
          have hpure : (pure (rt :: rts) : Except String (List RouteDict))
              = .ok (rt :: rts) := rfl
          rw [hpure, Except.ok.injEq] at h
          subst h
          obtain ⟨hsingle1, hsingle2⟩ := osvr_ok_spec dist lookup v block rt hr
          obtain ⟨h1, h2⟩ := ih rts hrest
          constructor
          · intro x hx
            rcases List.mem_cons.mp hx with hx | hx
            · exact hx ▸ hsingle1
            · exact h1 x hx
          · simp only [List.map_cons, List.flatten_cons, List.map_append]
            exact hsingle2.append h2



theorem optimize_routes_ok_spec (dist : Coord → Coord → ℚ)
    (lookup : String → Option Coord) (req : OptimizationRequest)
    (vehicles : List Vehicle) (addresses : List Address) (res : OptDict)
    (h : optimize_routes dist lookup req vehicles addresses = .ok res) :
    (∀ rt ∈ res.routes,
      rt.stops.map (fun s => s.sequence) = List.range' 1 rt.stops.length) ∧
    ((res.routes.map (fun rt => rt.stops.map (fun s => s.address_id))).flatten).Perm
      ((selectedAddresses req addresses).map (fun a => a.id)) := by
  unfold optimize_routes at h
  dsimp only at h
  split at h
  · exact absurd h (by simp [throw, throwThe, MonadExceptOf.throw])
  · split at h
    · exact absurd h (by simp [throw, throwThe, MonadExceptOf.throw])
    · next hsvne hsane =>
      split at h
      · next v heq =>
        cases hr : optimize_single_vehicle_route dist lookup v
            (selectedAddresses req addresses) with
        | error e =>
          rw [hr, except_bind_error] at h
          exact absurd h (by simp)
        | ok rt =>
          rw [hr, except_bind_ok] at h
          have h1 : (pure [rt] : Except String (List RouteDict)) = .ok [rt] := rfl
          rw [h1, except_bind_ok] at h
          have h2 : ∀ (o : OptDict), (pure o : Except String OptDict) = .ok o :=
            fun _ => rfl
          rw [h2, Except.ok.injEq] at h
          subst h
          dsimp only
          obtain ⟨hs1, hs2⟩ := osvr_ok_spec dist lookup v _ rt hr
          constructor
          · intro x hx
            rcases List.mem_cons.mp hx with hx | hx
            · exact hx ▸ hs1
            · simp at hx
          · simpa using hs2
      · cases hm : optimize_multi_vehicle_routes dist lookup
            (selectedVehicles req vehicles) (selectedAddresses req addresses) with
        | error e =>
          rw [hm, except_bind_error] at h
          exact absurd h (by simp)
        | ok routes =>
          rw [hm, except_bind_ok] at h
          have h2 : ∀ (o : OptDict), (pure o : Except String OptDict) = .ok o :=
            fun _ => rfl
          rw [h2, Except.ok.injEq] at h
          subst h
          dsimp only
          unfold optimize_multi_vehicle_routes at hm
          split at hm
          · next hguard =>
            rw [Bool.or_eq_true] at hguard
            rcases hguard with hg | hg
            · exact absurd hg hsvne
            · exact absurd hg hsane
          · have hne : selectedVehicles req vehicles ≠ [] := by
              intro hnil
              exact hsvne (by rw [hnil]; rfl)
            obtain ⟨hb1, hb2⟩ := assignBlocks_main
              (selectedAddresses req addresses) (selectedVehicles req vehicles) hne
            obtain ⟨h1, h2⟩ := routesOfBlocks_spec dist lookup _ routes hm
            exact ⟨h1, by rw [hb1] at h2; exact h2⟩



/-! ## Claim theorems -/


/-- C8 (amended): every heuristic route with at least one stop reports, after
Python's rounding to two decimals, a total distance equal to the sum of the
per-stop distance increments plus the return-to-depot leg; its total time is
exactly the sum of the stop-level travel times, the per-stop service times and
the return leg's travel time; and its total cost is the rounded product of the
unrounded total distance with the vehicle's cost per km. -/
theorem C8_route_totals (dist : Coord → Coord → ℚ) (lookup : String → Option Coord)
    (v : Vehicle) (addrs : List Address) (r : RouteDict)
    (h : optimize_single_vehicle_route dist lookup v addrs = .ok r)
    (hs : r.stops ≠ []) :
    r.total_distance
      = round2 ((r.stops.map (fun s => s.distance_from_previous)).sum
          + retLegOf dist lookup addrs) ∧
    (r.total_time : ℚ)
      = (r.stops.map (fun s => s.time_from_previous)).sum
        + (svcSum addrs (tourOf dist lookup addrs) : ℚ)
        + (calculate_travel_time (retLegOf dist lookup addrs) 50 : ℚ) ∧
    r.total_cost
      = round2 (((r.stops.map (fun s => s.distance_from_previous)).sum
          + retLegOf dist lookup addrs) * v.cost_per_km) := by
  unfold optimize_single_vehicle_route at h
  split at h
  · next hemp =>
    rw [Except.ok.injEq] at h
    subst h
    exact absurd rfl hs
  · next hemp =>
    dsimp only at h
    split at h
    · exact absurd h (by simp)
    · split at h
      · exact absurd h (by simp)
      · next tour0 heq =>
        rcases hb : buildStops (matrixOf dist (matrixCoords lookup addrs (0, 0)))
            addrs 1 (8 * 60)
            ((two_opt_improvement (matrixOf dist (matrixCoords lookup addrs (0, 0))) tour0).headD 0)
            ((two_opt_improvement (matrixOf dist (matrixCoords lookup addrs (0, 0))) tour0).tail)
          with ⟨stops, td, tt⟩
        rw [hb] at h
        simp only at h
        rw [Except.ok.injEq] at h
        subst h
        simp only [] at hs ⊢
        have htour : tourOf dist lookup addrs
            = two_opt_improvement (matrixOf dist (matrixCoords lookup addrs (0, 0))) tour0 := by
          unfold tourOf
          dsimp only
          rw [heq]
        have hret : retLegOf dist lookup addrs
            = matrixOf dist (matrixCoords lookup addrs (0, 0))
                ((two_opt_improvement (matrixOf dist (matrixCoords lookup addrs (0, 0))) tour0).getLastD 0)
                ((two_opt_improvement (matrixOf dist (matrixCoords lookup addrs (0, 0))) tour0).headD 0) := by
          unfold retLegOf matOf
          rw [htour]
        have hne : stops.isEmpty = false := by
          cases stops with
          | nil => exact absurd rfl hs
          | cons s ss => rfl
        obtain ⟨-, -, hd, ht⟩ := buildStops_spec
          (matrixOf dist (matrixCoords lookup addrs (0, 0))) addrs
          ((two_opt_improvement (matrixOf dist (matrixCoords lookup addrs (0, 0))) tour0).tail)
          1 (8 * 60)
          ((two_opt_improvement (matrixOf dist (matrixCoords lookup addrs (0, 0))) tour0).headD 0)
        rw [hb] at hd ht
        simp only [] at hd ht
        have hsvc : (svcSum addrs (tourOf dist lookup addrs) : ℚ)
            = (((two_opt_improvement (matrixOf dist (matrixCoords lookup addrs (0, 0))) tour0).tail.map
                (fun idx => (addrs.getD (idx - 1) dummyAddress).service_time)).sum : ℚ) := by
          rw [htour]
          rfl
        rw [hne]
        simp only [Bool.false_eq_true, if_false]
        refine ⟨?_, ?_, ?_⟩
        · rw [hret, hd]
        · rw [hret, hsvc]
          push_cast at ht ⊢
          rw [ht]
        · rw [hret, hd]



/-- C8 counterexample: with `1/16`-km legs the route's increments sum to
`0.125` km but the reported total distance is the rounded `0.12`, so the
claimed exact equality fails. -/
theorem C8_cex :
    (optimize_single_vehicle_route dist8 lookup0 v0 [a0]).map
        (fun r => (r.total_distance,
          (r.stops.map (fun s => s.distance_from_previous)).sum
            + retLegOf dist8 lookup0 [a0]))
      = Except.ok ((3/25 : ℚ), (1/8 : ℚ)) ∧ (3/25 : ℚ) ≠ 1/8 := by
  constructor
  · norm_num [optimize_single_vehicle_route, matrixCoords, matrixOf,
      opt_geocode_address, truthyQ, a0, v0, dist8, lookup0,
      nearest_neighbor_tsp, nnLoop, argminKey, two_opt_improvement, twoOptLoop,
      twoOptPass, twoOptPairs, pyRange, twoOptStep, reverseSegment,
      calculate_tour_distance, pathDist, buildStops, dummyAddress,
      calculate_travel_time, pyInt, round2, roundHalfEven, pad2,
      retLegOf, tourOf, matOf, Except.map,
      List.range, List.range.loop, Nat.factorial]
  · norm_num

/-- Evaluation of the concrete `1/16`-km-leg route behind C8's witness. -/
theorem res8_eval :
    optimize_single_vehicle_route dist8 lookup0 v0 [a0] = .ok res8 := by
  norm_num [optimize_single_vehicle_route, matrixCoords, matrixOf,
    opt_geocode_address, truthyQ, a0, v0, dist8, lookup0,
    nearest_neighbor_tsp, nnLoop, argminKey, two_opt_improvement, twoOptLoop,
    twoOptPass, twoOptPairs, pyRange, twoOptStep, reverseSegment,
    calculate_tour_distance, pathDist, buildStops, dummyAddress,
    calculate_travel_time, pyInt, round2, roundHalfEven, pad2,
    res8, defaultRouteDict, Except.toOption,
    List.range, List.range.loop, Nat.factorial]

/-- The concrete route behind C8's witness has a stop. -/
theorem res8_stops_ne : res8.stops ≠ [] := by
  norm_num [optimize_single_vehicle_route, matrixCoords, matrixOf,
    opt_geocode_address, truthyQ, a0, v0, dist8, lookup0,
    nearest_neighbor_tsp, nnLoop, argminKey, two_opt_improvement, twoOptLoop,
    twoOptPass, twoOptPairs, pyRange, twoOptStep, reverseSegment,
    calculate_tour_distance, pathDist, buildStops, dummyAddress,
    calculate_travel_time, pyInt, round2, roundHalfEven, pad2,
    res8, defaultRouteDict, Except.toOption,
    List.range, List.range.loop, Nat.factorial]

/-- C8 witness: the amended claim at the concrete `1/16`-km-leg instance. -/
theorem C8_route_totals_witness :
    res8.total_distance
      = round2 ((res8.stops.map (fun s => s.distance_from_previous)).sum
          + retLegOf dist8 lookup0 [a0]) ∧
    (res8.total_time : ℚ)
      = (res8.stops.map (fun s => s.time_from_previous)).sum
        + (svcSum [a0] (tourOf dist8 lookup0 [a0]) : ℚ)
        + (calculate_travel_time (retLegOf dist8 lookup0 [a0]) 50 : ℚ) ∧
    res8.total_cost
      = round2 (((res8.stops.map (fun s => s.distance_from_previous)).sum
          + retLegOf dist8 lookup0 [a0]) * v0.cost_per_km) :=
  C8_route_totals dist8 lookup0 v0 [a0] res8 res8_eval res8_stops_ne



/-- C1 (amended): when at least one stop resolves and the solver capability
always errors, `process_optimization_request` still completes with the
fallback optimizer's outcome rather than failing — but that outcome carries no
solving-engine field at all (`optimization_engine = none`); only the external
path tags its result (with the string `"VROOM"`, not `"external"`). -/
theorem C1_amended (dist : Coord → Coord → ℚ) (lookup : String → Option Coord)
    (solver : VroomProblem → VroomResponse) (cache : Cache)
    (vehicles : List Vehicle) (addresses : List Address) (od : OptDict)
    (hgeo : (validAddressesOf lookup cache addresses).isEmpty = false)
    (hsolv : ∀ p, (solver p).hasError = true)
    (hfb : fallback_optimization dist lookup vehicles
        (validAddressesOf lookup cache addresses) = .ok od) :
    process_optimization_request dist lookup solver cache vehicles addresses
      = .outcome (fallbackOutcome od) ∧
    (fallbackOutcome od).optimization_engine = none := by
  constructor
  · unfold process_optimization_request
    dsimp only
    rw [hgeo]
    simp only [Bool.false_eq_true, if_false]
    rcases hsresp : solver (create_vroom_job vehicles
        (validAddressesOf lookup cache addresses)
        (validCoordinatesOf lookup cache addresses)) with msg | sol
    · rw [hfb]
    · have := hsolv (create_vroom_job vehicles
        (validAddressesOf lookup cache addresses)
        (validCoordinatesOf lookup cache addresses))
      rw [hsresp] at this
      exact absurd this (by simp [VroomResponse.hasError])
  · rfl

/-- C1 counterexample: a concrete run whose solver always errors completes
with an outcome whose engine field is absent (`none`), not `some "heuristic"`
as claimed. -/
theorem C1_cex :
    engineOf (process_optimization_request dist0 lookup0 solverErr [] [v0] [a0])
        = some none ∧
    (none : Option String) ≠ some "heuristic" := by
  constructor
  · norm_num [process_optimization_request, validAddressesOf, validCoordinatesOf,
      batch_geocode_addresses, batchLoop, geocode_address, dictSet, cacheKey,
      truthyQ, a0, v0, lookup0, dist0, solverErr, engineOf, fallbackOutcome,
      fallback_optimization, fullRequest, optimize_routes, selectedVehicles,
      selectedAddresses, maxTotalTime, optimize_single_vehicle_route,
      matrixCoords, matrixOf, opt_geocode_address, nearest_neighbor_tsp, nnLoop,
      argminKey, two_opt_improvement, twoOptLoop, twoOptPass, twoOptPairs,
      pyRange, twoOptStep, reverseSegment, calculate_tour_distance, pathDist,
      buildStops, dummyAddress, calculate_travel_time, pyInt, round2,
      roundHalfEven, pad2, List.range, List.range.loop, Nat.factorial]
  · simp



/-- C1 witness: the amended claim at a concrete one-vehicle, one-stop run with
an always-erroring solver. -/
theorem C1_witness :
    process_optimization_request dist0 lookup0 solverErr [] [v0] [a0]
      = .outcome (fallbackOutcome od1) ∧
    (fallbackOutcome od1).optimization_engine = none :=
  C1_amended dist0 lookup0 solverErr [] [v0] [a0] od1 rfl (fun _ => rfl)
    (by norm_num [od1, defaultOptDict, Except.toOption,
      validAddressesOf, validCoordinatesOf,
      batch_geocode_addresses, batchLoop, geocode_address, dictSet, cacheKey,
      truthyQ, a0, v0, lookup0, dist0,
      fallback_optimization, fullRequest, optimize_routes, selectedVehicles,
      selectedAddresses, maxTotalTime, optimize_single_vehicle_route,
      matrixCoords, matrixOf, opt_geocode_address, nearest_neighbor_tsp, nnLoop,
      argminKey, two_opt_improvement, twoOptLoop, twoOptPass, twoOptPairs,
      pyRange, twoOptStep, reverseSegment, calculate_tour_distance, pathDist,
      buildStops, dummyAddress, calculate_travel_time, pyInt, round2,
      roundHalfEven, pad2, List.range, List.range.loop, Nat.factorial])

/-- C4 (amended): resolving an address twice against the same cache returns an
identical coordinate, and the second resolution invokes the lookup capability
only when the first resolution failed (no stored coordinate, cache miss, and
the lookup returned nothing) — a failed lookup is not cached, so it is
re-invoked, refining the claim's "for every outcome" clause. -/
theorem C4_amended (lookup : String → Option Coord) (cache : Cache)
    (a : Address) :
    (geocode_address lookup (geocode_address lookup cache a).cache a).coords
      = (geocode_address lookup cache a).coords ∧
    ((geocode_address lookup (geocode_address lookup cache a).cache a).invoked
        = true →
      (geocode_address lookup cache a).invoked = true ∧
        lookup (geo_format_address a) = none) := by
  unfold geocode_address
  split_ifs with htr
  · exact ⟨rfl, by simp⟩
  · rcases hc : cache.lookup (cacheKey a) with _ | c
    · rcases hl : lookup (geo_format_address a) with _ | c2
      · simp [hc, hl]
      · simp [hc, hl, List.lookup]
    · simp [hc]

/-- C4 counterexample: after a failed lookup (nothing cached) the second
resolution invokes the lookup capability again, contrary to the claim's
"including . . . a failed lookup". -/
theorem C4_cex :
    (geocode_address lookup0
        (geocode_address lookup0 [] aNone).cache aNone).invoked = true := rfl

/-- C4 witness: the amended claim at a concrete address with no stored
coordinates and a succeeding lookup. -/
theorem C4_witness :
    (geocode_address lookup1 (geocode_address lookup1 [] aNone).cache
        aNone).coords = (geocode_address lookup1 [] aNone).coords ∧
    ((geocode_address lookup1 (geocode_address lookup1 [] aNone).cache
        aNone).invoked = true →
      (geocode_address lookup1 [] aNone).invoked = true ∧
        lookup1 (geo_format_address aNone) = none) :=
  C4_amended lookup1 [] aNone



theorem decodeFrom_ids (addrs : List Address) :
    ∀ (steps : List VroomStep) (i : ℕ),
      (decodeFrom addrs i steps).map (fun s => s.address_id)
        = (jobIds steps).filter (fun j => (addrs.map (fun a => a.id)).contains j) := by
  intro steps
  induction steps with
  | nil => intro i; simp [decodeFrom, jobIds]
  | cons s rest ih =>
    intro i
    by_cases hty : s.type = "job"
    · rcases hf : addrs.find? (fun a => a.id = s.job) with _ | a
      · have hne : ¬ ∃ a ∈ addrs, a.id = s.job := by
          rintro ⟨b, hb, hbe⟩
          have hnone := List.find?_eq_none.mp hf b hb
          simp [hbe] at hnone
        simp [decodeFrom, jobIds, hty, hf, List.filter_cons, hne, ih (i + 1)]
      · have hav : a.id = s.job := by
          have := List.find?_some hf
          simpa using this
        have hye : ∃ b ∈ addrs, b.id = s.job :=
          ⟨a, List.mem_of_find?_eq_some hf, hav⟩
        simp [decodeFrom, jobIds, hty, hf, List.filter_cons, hye, hav, ih (i + 1)]
    · simp [decodeFrom, jobIds, hty, ih (i + 1)]



theorem processRoutes_vehicles (vehicles : List Vehicle) (addrs : List Address) :
    ∀ (rts : List VroomRoute),
      (processRoutes vehicles addrs rts).1.map (fun r => r.vehicle_id)
        = (rts.filter (fun rt =>
            (vehicles.find? (fun v => v.id = rt.vehicle)).isSome)).map
              (fun rt => rt.vehicle) := by
  intro rts
  induction rts with
  | nil => simp [processRoutes]
  | cons rt rest ih =>
    rcases hf : vehicles.find? (fun v => v.id = rt.vehicle) with _ | v
    · simp [processRoutes, hf, List.filter_cons, ih]
    · rcases hp : processRoutes vehicles addrs rest with ⟨routes, td, tt, tc⟩
      rw [hp] at ih
      simp [processRoutes, hf, hp, List.filter_cons, ih]

/-- C9: encoding preserves the stop identifiers in order (`jobs.map id =
addresses.map id`); decoding a synthetic response whose job steps all name
known stops reconstructs exactly those identifiers in step order; job steps
naming unknown stops are dropped (decoded ids are the known-id filter of the
step ids) and routes naming unknown vehicles are skipped, with the decode
always completing. -/
theorem C9_roundtrip (vehicles : List Vehicle) (addresses : List Address)
    (coordinates : List (ℕ × Coord)) (steps : List VroomStep)
    (hknown : ∀ s ∈ steps, s.type = "job" →
      ∃ a ∈ addresses, a.id = s.job) :
    ((create_vroom_job vehicles addresses coordinates).jobs.map (fun j => j.id)
        = addresses.map (fun a => a.id)) ∧
    ((decodeStops addresses steps).map (fun s => s.address_id)
        = jobIds steps) ∧
    (∀ steps2 : List VroomStep,
      (decodeStops addresses steps2).map (fun s => s.address_id)
        = (jobIds steps2).filter (fun j =>
            (addresses.map (fun a => a.id)).contains j)) ∧
    (∀ rts : List VroomRoute,
      (processRoutes vehicles addresses rts).1.map (fun r => r.vehicle_id)
        = (rts.filter (fun rt =>
            (vehicles.find? (fun v => v.id = rt.vehicle)).isSome)).map
              (fun rt => rt.vehicle)) := by
  refine ⟨?_, ?_, fun steps2 => decodeFrom_ids addresses steps2 0,
    processRoutes_vehicles vehicles addresses⟩
  · simp [create_vroom_job]
  · rw [decodeStops, decodeFrom_ids addresses steps 0]
    apply List.filter_eq_self.mpr
    intro j hj
    rcases List.mem_filterMap.mp hj with ⟨s, hs, hsj⟩
    by_cases hty : s.type = "job"
    · rw [if_pos hty] at hsj
      rw [Option.some.injEq] at hsj
      rcases hknown s hs hty with ⟨a, ha, haj⟩
      exact List.elem_eq_true_of_mem (hsj ▸ haj ▸ List.mem_map_of_mem _ ha)
    · rw [if_neg hty] at hsj
      exact absurd hsj (by simp)



/-- C9 witness: the round-trip at one vehicle, one stop and a one-job-step
synthetic response. -/
theorem C9_witness :
    ((create_vroom_job [v0] [a0] [(7, (1, 1))]).jobs.map (fun j => j.id)
        = ([a0] : List Address).map (fun a => a.id)) ∧
    ((decodeStops [a0] [step1]).map (fun s => s.address_id)
        = jobIds [step1]) ∧
    (∀ steps2 : List VroomStep,
      (decodeStops [a0] steps2).map (fun s => s.address_id)
        = (jobIds steps2).filter (fun j =>
            (([a0] : List Address).map (fun a => a.id)).contains j)) ∧
    (∀ rts : List VroomRoute,
      (processRoutes [v0] [a0] rts).1.map (fun r => r.vehicle_id)
        = (rts.filter (fun rt =>
            (([v0] : List Vehicle).find? (fun v => v.id = rt.vehicle)).isSome)).map
              (fun rt => rt.vehicle)) :=
  C9_roundtrip [v0] [a0] [(7, (1, 1))] [step1] (by decide)

/-- C10: the coordinate `(0.0, 0.0)` is conflated with resolution failure —
a stored zero latitude or longitude is falsy, so the stop does not bypass
resolution and the lookup capability is invoked (in both geocoder variants);
any stop whose batch-resolved coordinate is exactly `(0, 0)` is excluded from
`valid_addresses`; every surviving coordinate entry is non-sentinel; and the
outcome's geocoded count is the size of that filtered dict. -/
theorem C10_zero_sentinel :
    (∀ (lookup : String → Option Coord) (a : Address),
      a.latitude = some 0 ∨ a.longitude = some 0 →
      (geocode_address lookup [] a).invoked = true) ∧
    (∀ (lookup : String → Option Coord) (a : Address),
      a.latitude = some 0 ∨ a.longitude = some 0 →
      opt_geocode_address lookup a = (lookup (full_address a)).getD (0, 0)) ∧
    (∀ (lookup : String → Option Coord) (cache : Cache)
        (addresses : List Address) (a : Address),
      (((batch_geocode_addresses lookup cache addresses).1.lookup a.id).getD (0, 0)
          = (0, 0)) →
      a ∉ validAddressesOf lookup cache addresses) ∧
    (∀ (lookup : String → Option Coord) (cache : Cache)
        (addresses : List Address) (p : ℕ × Coord),
      p ∈ validCoordinatesOf lookup cache addresses → p.2 ≠ (0, 0)) ∧
    (∀ (sol : VroomSolution) (vehicles : List Vehicle) (va : List Address)
        (lookup : String → Option Coord) (cache : Cache)
        (addresses : List Address),
      (process_vroom_solution sol vehicles va
          (validCoordinatesOf lookup cache addresses)).geocoded_addresses
        = some (validCoordinatesOf lookup cache addresses).length) := by
  refine ⟨?_, ?_, ?_, ?_, fun _ _ _ _ _ _ => rfl⟩
  · intro lookup a hz
    unfold geocode_address
    have htr : (truthyQ a.latitude && truthyQ a.longitude) = false := by
      rcases hz with hz | hz
      · rw [hz]
        simp [truthyQ]
      · rw [hz]
        simp [truthyQ]
    rw [htr]
    simp only [Bool.false_eq_true, if_false, List.lookup_nil]
    rcases lookup (geo_format_address a) with _ | c
    · rfl
    · rfl
  · intro lookup a hz
    unfold opt_geocode_address
    have htr : (truthyQ a.latitude && truthyQ a.longitude) = false := by
      rcases hz with hz | hz
      · rw [hz]
        simp [truthyQ]
      · rw [hz]
        simp [truthyQ]
    rw [htr]
    simp only [Bool.false_eq_true, if_false]
    rcases lookup (full_address a) with _ | c
    · rfl
    · rfl
  · intro lookup cache addresses a hzero
    unfold validAddressesOf
    intro hmem
    rcases List.mem_filter.mp hmem with ⟨-, hpred⟩
    rw [hzero] at hpred
    simp at hpred
  · intro lookup cache addresses p hp
    unfold validCoordinatesOf at hp
    rcases List.mem_filter.mp hp with ⟨-, hpred⟩
    simpa using hpred

/-- C10 witness: the sentinel behaviour at a concrete address whose stored
latitude is `0.0`. -/
theorem C10_witness :
    (geocode_address lookup0 [] aZero).invoked = true ∧
    opt_geocode_address lookup0 aZero = (lookup0 (full_address aZero)).getD (0, 0) :=
  ⟨C10_zero_sentinel.1 lookup0 aZero (Or.inl rfl),
   C10_zero_sentinel.2.1 lookup0 aZero (Or.inl rfl)⟩



theorem selected_fullRequest (vs : List Vehicle) (addrs : List Address) :
    selectedVehicles (fullRequest vs addrs) vs = vs ∧
    selectedAddresses (fullRequest vs addrs) addrs = addrs := by
  constructor
  · apply List.filter_eq_self.mpr
    intro v hv
    exact List.elem_eq_true_of_mem (List.mem_map_of_mem _ hv)
  · apply List.filter_eq_self.mpr
    intro a ha
    exact List.elem_eq_true_of_mem (List.mem_map_of_mem _ ha)

theorem optimize_routes_single (dist : Coord → Coord → ℚ)
    (lookup : String → Option Coord) (req : OptimizationRequest)
    (vehicles : List Vehicle) (addresses : List Address) (res : OptDict)
    (v : Vehicle) (hsv : selectedVehicles req vehicles = [v])
    (h : optimize_routes dist lookup req vehicles addresses = .ok res) :
    ∃ rt, optimize_single_vehicle_route dist lookup v
        (selectedAddresses req addresses) = .ok rt ∧ res.routes = [rt] := by
  unfold optimize_routes at h
  dsimp only at h
  rw [hsv] at h
  simp only [List.isEmpty_cons, Bool.false_eq_true, if_false] at h
  split at h
  · exact absurd h (by simp [throw, throwThe, MonadExceptOf.throw])
  · cases hr : optimize_single_vehicle_route dist lookup v
        (selectedAddresses req addresses) with
    | error e =>
      rw [hr, except_bind_error] at h
      exact absurd h (by simp)
    | ok rt =>
      rw [hr, except_bind_ok] at h
      have h1 : (pure [rt] : Except String (List RouteDict)) = .ok [rt] := rfl
      rw [h1, except_bind_ok] at h
      have h2 : ∀ (o : OptDict), (pure o : Except String OptDict) = .ok o :=
        fun _ => rfl
      rw [h2, Except.ok.injEq] at h
      subst h
      exact ⟨rt, rfl, rfl⟩

/-- C6: with a single vehicle, `optimize_routes` routes every stop through it
(one route whose stop ids are a permutation of the input ids); with `V ≥ 1`
vehicles the stops are split into contiguous blocks in input order whose
concatenation is the input and whose sizes are `N / V`, plus one for exactly
the first `N mod V` vehicles — so any two blocks differ in size by at most
one. -/
theorem C6_fleet_partition (dist : Coord → Coord → ℚ)
    (lookup : String → Option Coord) (vehicles : List Vehicle)
    (addresses : List Address) (hV : vehicles ≠ []) :
    (∀ (v : Vehicle) (res : OptDict),
      optimize_routes dist lookup (fullRequest [v] addresses) [v] addresses
          = .ok res →
      ∃ rt, res.routes = [rt] ∧
        (rt.stops.map (fun s => s.address_id)).Perm
          (addresses.map (fun a => a.id))) ∧
    (((assignBlocks addresses (addresses.length / vehicles.length)
          (addresses.length % vehicles.length) vehicles 0 0).map
        (fun p => p.2)).flatten = addresses) ∧
    ((assignBlocks addresses (addresses.length / vehicles.length)
          (addresses.length % vehicles.length) vehicles 0 0).map
        (fun p => p.2.length)
      = (List.range vehicles.length).map (fun k =>
          addresses.length / vehicles.length +
            if k < addresses.length % vehicles.length then 1 else 0)) := by
  refine ⟨?_, (assignBlocks_main addresses vehicles hV).1,
    (assignBlocks_main addresses vehicles hV).2⟩
  intro v res h
  have hsel := selected_fullRequest [v] addresses
  obtain ⟨rt, hrt, hroutes⟩ :=
    optimize_routes_single dist lookup _ [v] addresses res v hsel.1 h
  refine ⟨rt, hroutes, ?_⟩
  have := (osvr_ok_spec dist lookup v _ rt hrt).2
  rwa [hsel.2] at this

/-- C6 witness: the partition at two vehicles and five stops (blocks of sizes
3 and 2). -/
theorem C6_witness :
    (∀ (v : Vehicle) (res : OptDict),
      optimize_routes dist0 lookup0 (fullRequest [v] addrs5) [v] addrs5
          = .ok res →
      ∃ rt, res.routes = [rt] ∧
        (rt.stops.map (fun s => s.address_id)).Perm
          (addrs5.map (fun a => a.id))) ∧
    (((assignBlocks addrs5 (addrs5.length / ([v0, v1] : List Vehicle).length)
          (addrs5.length % ([v0, v1] : List Vehicle).length) [v0, v1] 0 0).map
        (fun p => p.2)).flatten = addrs5) ∧
    ((assignBlocks addrs5 (addrs5.length / ([v0, v1] : List Vehicle).length)
          (addrs5.length % ([v0, v1] : List Vehicle).length) [v0, v1] 0 0).map
        (fun p => p.2.length)
      = (List.range ([v0, v1] : List Vehicle).length).map (fun k =>
          addrs5.length / ([v0, v1] : List Vehicle).length +
            if k < addrs5.length % ([v0, v1] : List Vehicle).length then 1
            else 0)) :=
  C6_fleet_partition dist0 lookup0 [v0, v1] addrs5 (List.cons_ne_nil _ _)

/-- C7: on a non-empty stop list, single-vehicle optimization fails — with the
`ValueError` message naming the vehicle — exactly when the total delivery
weight or the total delivery volume exceeds the vehicle's capacity; otherwise
it returns a route.  Failing means no route dict is produced at all. -/
theorem C7_capacity_check (dist : Coord → Coord → ℚ)
    (lookup : String → Option Coord) (v : Vehicle) (addrs : List Address)
    (h : addrs ≠ []) :
    (optimize_single_vehicle_route dist lookup v addrs
        = .error ("Vehicle " ++ toString v.id ++ " capacity exceeded")
      ↔ ((addrs.map (fun a => a.delivery_weight)).sum > v.capacity ∨
          (addrs.map (fun a => a.delivery_volume)).sum > v.capacity)) ∧
    ((addrs.map (fun a => a.delivery_weight)).sum ≤ v.capacity ∧
        (addrs.map (fun a => a.delivery_volume)).sum ≤ v.capacity →
      ∃ r, optimize_single_vehicle_route dist lookup v addrs = .ok r) := by
  have hemp : addrs.isEmpty = false := by
    cases addrs with
    | nil => exact absurd rfl h
    | cons a as => rfl
  unfold optimize_single_vehicle_route
  simp only [hemp, Bool.false_eq_true, if_false]
  split_ifs with hcap
  · constructor
    · exact ⟨fun _ => hcap, fun _ => rfl⟩
    · intro hle
      rcases hcap with hc | hc
      · exact absurd hc (not_lt.mpr hle.1)
      · exact absurd hc (not_lt.mpr hle.2)
  · have hlen : (matrixCoords lookup addrs (0, 0)).length = addrs.length + 1 := by
      simp [matrixCoords]
    have hnn : nearest_neighbor_tsp
        (matrixOf dist (matrixCoords lookup addrs (0, 0)))
        (matrixCoords lookup addrs (0, 0)).length 0
        = some (0 :: nnLoop (matrixOf dist (matrixCoords lookup addrs (0, 0)))
            ((List.range (matrixCoords lookup addrs (0, 0)).length).erase 0).length 0
            ((List.range (matrixCoords lookup addrs (0, 0)).length).erase 0)) := by
      unfold nearest_neighbor_tsp
      rw [if_pos (by rw [hlen]; exact Nat.succ_pos _)]
    rw [hnn]
    dsimp only
    rcases hb : buildStops (matrixOf dist (matrixCoords lookup addrs (0, 0)))
        addrs 1 (8 * 60) _ _ with ⟨stops, td, tt⟩
    constructor
    · constructor
      · intro habs
        exact absurd habs (by simp)
      · intro hc
        exact absurd hc hcap
    · intro _
      exact ⟨_, rfl⟩

/-- C7 witness: the capacity check at a stop whose weight exceeds `v0`'s
capacity. -/
theorem C7_witness :
    (optimize_single_vehicle_route dist0 lookup0 v0 [aHeavy]
        = .error ("Vehicle " ++ toString v0.id ++ " capacity exceeded")
      ↔ ((([aHeavy] : List Address).map (fun a => a.delivery_weight)).sum > v0.capacity ∨
          (([aHeavy] : List Address).map (fun a => a.delivery_volume)).sum > v0.capacity)) ∧
    ((([aHeavy] : List Address).map (fun a => a.delivery_weight)).sum ≤ v0.capacity ∧
        (([aHeavy] : List Address).map (fun a => a.delivery_volume)).sum ≤ v0.capacity →
      ∃ r, optimize_single_vehicle_route dist0 lookup0 v0 [aHeavy] = .ok r) :=
  C7_capacity_check dist0 lookup0 v0 [aHeavy] (List.cons_ne_nil _ _)

/-- C3 (amended): in every route produced by the heuristic optimizer the
sequence numbers are contiguous integers starting at 1, and the stop ids of
all routes together are a permutation of the selected input stop ids — each
assigned stop appears in exactly one route.  (The VROOM decode path violates
the claim; see the counterexample.) -/
theorem C3_heuristic_routes (dist : Coord → Coord → ℚ)
    (lookup : String → Option Coord) (req : OptimizationRequest)
    (vehicles : List Vehicle) (addresses : List Address) (res : OptDict)
    (h : optimize_routes dist lookup req vehicles addresses = .ok res) :
    (∀ rt ∈ res.routes,
      rt.stops.map (fun s => s.sequence) = List.range' 1 rt.stops.length) ∧
    ((res.routes.map (fun rt => rt.stops.map (fun s => s.address_id))).flatten).Perm
      ((selectedAddresses req addresses).map (fun a => a.id)) :=
  optimize_routes_ok_spec dist lookup req vehicles addresses res h

/-- C3 counterexample: the VROOM decode path numbers stops with the raw
zero-based `enumerate` index over all steps, so a decoded route's sequence
list is `[0]`, not the claimed contiguous-from-1 `[1]`. -/
theorem C3_cex :
    (process_vroom_solution sol1 [v0] [a0] [(7, (1, 1))]).routes.map
        (fun r => r.stops.map (fun s => s.sequence)) = [[0]] ∧
    ([0] : List ℕ) ≠ List.range' 1 1 :=
  ⟨rfl, by decide⟩

/-- C3 witness: the amended claim at the concrete two-vehicle, three-stop
heuristic run. -/
theorem C3_witness :
    (∀ rt ∈ res3.routes,
      rt.stops.map (fun s => s.sequence) = List.range' 1 rt.stops.length) ∧
    ((res3.routes.map (fun rt => rt.stops.map (fun s => s.address_id))).flatten).Perm
      ((selectedAddresses (fullRequest [v0, v1] addrs3) addrs3).map (fun a => a.id)) :=
  C3_heuristic_routes dist0 lookup0 (fullRequest [v0, v1] addrs3) [v0, v1]
    addrs3 res3 (by
      set_option maxRecDepth 4000 in
      norm_num [res3, defaultOptDict, Except.toOption,
        fullRequest, optimize_routes, selectedVehicles, selectedAddresses,
        maxTotalTime, optimize_multi_vehicle_routes, assignBlocks,
        routesOfBlocks, optimize_single_vehicle_route,
        matrixCoords, matrixOf, opt_geocode_address, truthyQ,
        a0, addrN, addrs3, v0, v1, dist0, lookup0,
        nearest_neighbor_tsp, nnLoop, argminKey, two_opt_improvement,
        twoOptLoop, twoOptPass, twoOptPairs, pyRange, twoOptStep,
        reverseSegment, calculate_tour_distance, pathDist, buildStops,
        dummyAddress, calculate_travel_time, pyInt, round2, roundHalfEven,
        pad2, List.range, List.range.loop, Nat.factorial,
        except_bind_ok, except_bind_error])


end ROS
